import Mathlib

/-!
Verification of the DPO preference-training orchestration loop
(`nemo_rl/algorithms/dpo.py`) against its specification.

The development shallowly embeds the control logic of `dpo_train`, the
batch augmentation of `add_ref_logprobs_to_data`, the validation metric
aggregation of `validate_one_dataset`, and the stale-validation-key
pruning performed at checkpoint time.  Machine floats are modelled as
rationals; Python exceptions (assertion failures, division by zero) are
modelled with `Option`/`Except`.
-/

namespace DPO

/-! ## The training loop (`dpo_train`)

The loop state mirrors the local variables `current_epoch`, `current_step`,
`total_steps` of `dpo_train` together with the `consumed_samples` field of
`dpo_save_state`, which is incremented once per completed optimizer step. -/

structure LoopState where
  current_epoch : Nat
  current_step : Nat
  total_steps : Nat
  consumed_samples : Nat
deriving Repr, DecidableEq

/-- Configuration slice of `MasterConfig` consumed by the loop control flow.
`num_batches` is `len(train_dataloader)` (the number of batches one epoch
yields; `drop_last=True` makes every epoch yield exactly this many).
`num_val_datasets` is the number of entries of the `val_dataloader` dict. -/
structure LoopCfg where
  max_num_epochs : Nat
  max_num_steps : Nat
  num_batches : Nat
  train_global_batch_size : Nat
  save_period : Nat
  checkpointing_enabled : Bool
  val_period : Nat
  val_at_start : Bool
  num_val_datasets : Nat
deriving Repr, DecidableEq

/-- Fresh progress record, `_default_dpo_save_state` restricted to the fields
the loop control flow reads. -/
def freshState : LoopState :=
  { current_epoch := 0, current_step := 0, total_steps := 0, consumed_samples := 0 }

/-- Effects of one iteration of the `for batch in ...` body of `dpo_train`:
the updated loop state, the checkpoint written (if any, identified by the
`total_steps + 1` value it is keyed by), whether a `validate` call happened
this step, and whether the body hit one of its two `return` statements. -/
structure StepOut where
  state : LoopState
  checkpoint : Option Nat
  ran_validation : Bool
  terminated : Bool
deriving Repr, DecidableEq

/-- One iteration of the training-step body of `dpo_train`.  `timeoutAt` is
the oracle for `timeout.check_save()`, indexed by the value of `total_steps`
on entry to the step (each step consults it exactly once). -/
def doStep (cfg : LoopCfg) (timeoutAt : Nat → Bool) (st : LoopState) : StepOut :=
  let is_last_step : Bool :=
    decide (st.total_steps + 1 ≥ cfg.max_num_steps) ||
      (decide (st.current_epoch + 1 = cfg.max_num_epochs) &&
        decide (st.current_step + 1 = cfg.num_batches))
  let ran_validation : Bool :=
    decide (0 < cfg.val_period) && decide ((st.total_steps + 1) % cfg.val_period = 0)
  let should_save_by_step : Bool :=
    is_last_step || decide ((st.total_steps + 1) % cfg.save_period = 0)
  let should_save_by_timeout : Bool := timeoutAt st.total_steps
  let checkpoint : Option Nat :=
    if cfg.checkpointing_enabled && (should_save_by_step || should_save_by_timeout) then
      some (st.total_steps + 1)
    else
      none
  let st₁ : LoopState :=
    { current_epoch := st.current_epoch
      current_step := st.current_step + 1
      total_steps := st.total_steps + 1
      consumed_samples := st.consumed_samples + cfg.train_global_batch_size }
  let terminated : Bool :=
    should_save_by_timeout || decide (st₁.total_steps ≥ cfg.max_num_steps)
  { state := st₁, checkpoint := checkpoint, ran_validation := ran_validation,
    terminated := terminated }

/-- Observable effects accumulated over several steps: the `total_steps + 1`
keys of the checkpoints written, and the (post-step) `total_steps` values at
which a `validate` call ran. -/
structure RunEffects where
  checkpoints : List Nat
  val_steps : List Nat
deriving Repr, DecidableEq

def RunEffects.append (a b : RunEffects) : RunEffects :=
  { checkpoints := a.checkpoints ++ b.checkpoints,
    val_steps := a.val_steps ++ b.val_steps }

def StepOut.effects (o : StepOut) : RunEffects :=
  { checkpoints := o.checkpoint.toList,
    val_steps := if o.ran_validation then [o.state.total_steps] else [] }

/-- The inner `for batch in add_ref_logprobs_to_data(train_dataloader, ...)`
loop, running at most `batchesLeft` further batches.  The third component is
true when one of the body's `return` statements fired (ending `dpo_train`). -/
def runInner (cfg : LoopCfg) (timeoutAt : Nat → Bool) (st : LoopState) :
    Nat → LoopState × RunEffects × Bool
  | 0 => (st, ⟨[], []⟩, false)
  | batchesLeft + 1 =>
    let o := doStep cfg timeoutAt st
    if o.terminated then
      (o.state, o.effects, true)
    else
      let r := runInner cfg timeoutAt o.state batchesLeft
      (r.1, o.effects.append r.2.1, r.2.2)

/-- The outer `while current_epoch < max_num_epochs and total_steps <
max_num_steps` loop.  `fuel` bounds the number of `while` iterations; each
non-returning iteration increments `current_epoch`, so
`max_num_epochs - current_epoch` fuel is exact. -/
def runOuter (cfg : LoopCfg) (timeoutAt : Nat → Bool) (st : LoopState) :
    Nat → LoopState × RunEffects
  | 0 => (st, ⟨[], []⟩)
  | fuel + 1 =>
    if st.current_epoch < cfg.max_num_epochs ∧ st.total_steps < cfg.max_num_steps then
      let r := runInner cfg timeoutAt st cfg.num_batches
      if r.2.2 then
        (r.1, r.2.1)
      else
        let st₁ : LoopState :=
          { current_epoch := r.1.current_epoch + 1
            current_step := 0
            total_steps := r.1.total_steps
            consumed_samples := r.1.consumed_samples }
        let rest := runOuter cfg timeoutAt st₁ fuel
        (rest.1, r.2.1.append rest.2)
    else
      (st, ⟨[], []⟩)

/-- The whole `dpo_train` run from progress record `st`.  The initial validation
runs when `val_at_start` is set and `total_steps == 0`; it is recorded as a
`validate` call at step 0. -/
def dpoTrain (cfg : LoopCfg) (timeoutAt : Nat → Bool) (st : LoopState) :
    LoopState × RunEffects :=
  let initVal : RunEffects :=
    if cfg.val_at_start && decide (st.total_steps = 0) then ⟨[], [0]⟩ else ⟨[], []⟩
  let r := runOuter cfg timeoutAt st (cfg.max_num_epochs - st.current_epoch)
  (r.1, initVal.append r.2)

/-- Number of single-dataset validation passes a whole run performs: each
`validate` call runs `validate_one_dataset` once per entry of the
`val_dataloader` dict. -/
def valPassCount (cfg : LoopCfg) (timeoutAt : Nat → Bool) (st : LoopState) : Nat :=
  (dpoTrain cfg timeoutAt st).2.val_steps.length * cfg.num_val_datasets

/-! ## Validation metric aggregation (`validate_one_dataset`) -/

/-- The keys of `DPOValMetrics.__annotations__`, in declaration order. -/
def valMetricNames : List String :=
  ["loss", "sft_loss", "preference_loss", "accuracy",
   "rewards_chosen_mean", "rewards_rejected_mean",
   "num_valid_samples", "global_valid_seqs", "global_valid_toks"]

/-- The `DPOValMetrics` record (per-dataset validation summary). -/
structure DPOValMetrics where
  loss : ℚ
  sft_loss : ℚ
  preference_loss : ℚ
  accuracy : ℚ
  rewards_chosen_mean : ℚ
  rewards_rejected_mean : ℚ
  num_valid_samples : ℚ
  global_valid_seqs : ℚ
  global_valid_toks : ℚ
deriving Repr, DecidableEq

/-- The all-zero `DPOValMetrics` produced when no batch contributed. -/
def DPOValMetrics.zero : DPOValMetrics :=
  { loss := 0, sft_loss := 0, preference_loss := 0, accuracy := 0,
    rewards_chosen_mean := 0, rewards_rejected_mean := 0,
    num_valid_samples := 0, global_valid_seqs := 0, global_valid_toks := 0 }

/-- One contributing validation batch: the per-metric values appended to the
`val_metrics` lists by the batch loop of `validate_one_dataset` (already
reduced over the batch's micro-batches).  Batches whose `all_mb_metrics` was
empty contribute nothing and are not represented. -/
structure ValBatch where
  loss : ℚ
  sft_loss : ℚ
  preference_loss : ℚ
  accuracy : ℚ
  rewards_chosen_mean : ℚ
  rewards_rejected_mean : ℚ
  num_valid_samples : ℚ
  global_valid_seqs : ℚ
  global_valid_toks : ℚ
deriving Repr, DecidableEq

/-- Python `sum([value * weight for value, weight in zip(vs, ns)])`. -/
def weightedSum (vs ns : List ℚ) : ℚ := (List.zipWith (· * ·) vs ns).sum

/-- The aggregation `validate_one_dataset` performs after its batch loop,
over the list of batches that contributed metrics (so `num_valid_batches`
is the length of the input).  The `Bool` records whether the run-level
"no validation metrics were collected" warning fired.  `none` models
Python's `ZeroDivisionError`: every metric value is a float, and dividing
by a `0.0` sum of `num_valid_samples` raises. -/
def aggregateValMetrics (batches : List ValBatch) : Option (DPOValMetrics × Bool) :=
  if 0 < batches.length then
    let ns := batches.map ValBatch.num_valid_samples
    let s := ns.sum
    if s = 0 then none
    else
      some
        ({ num_valid_samples := s,
           global_valid_seqs := (batches.map ValBatch.global_valid_seqs).sum,
           global_valid_toks := (batches.map ValBatch.global_valid_toks).sum,
           loss := weightedSum (batches.map ValBatch.loss) ns / s,
           sft_loss := weightedSum (batches.map ValBatch.sft_loss) ns / s,
           preference_loss := weightedSum (batches.map ValBatch.preference_loss) ns / s,
           accuracy := weightedSum (batches.map ValBatch.accuracy) ns / s,
           rewards_chosen_mean :=
             weightedSum (batches.map ValBatch.rewards_chosen_mean) ns / s,
           rewards_rejected_mean :=
             weightedSum (batches.map ValBatch.rewards_rejected_mean) ns / s },
         false)
  else
    some (DPOValMetrics.zero, true)

/-- Sample-weighted aggregate as the spec words it: `Σ(v_i·n_i) / Σ(n_i)`. -/
def specWeightedMean (vs ns : List ℚ) : ℚ :=
  (List.zipWith (· * ·) vs ns).sum / ns.sum

/-! ## Batch padding and the divisibility gate (`add_ref_logprobs_to_data`) -/

/-- Modelled from the spec: `maybe_pad_last_batch` is defined in
`nemo_rl/algorithms/utils.py`, which is not among the sources; per the spec
it zero-pads a partial validation batch "up to the next valid multiple" of
`dp_size * micro_batch_size`.  A batch is abstracted to its list of rows. -/
def maybe_pad_last_batch (batch : List ℚ) (dp_size micro_batch_size : Nat) :
    List ℚ :=
  let m := dp_size * micro_batch_size
  let target := ((batch.length + m - 1) / m) * m
  batch ++ List.replicate (target - batch.length) 0

/-- The divisibility gate of `add_ref_logprobs_to_data`: when `batch.size`
is not a multiple of `dp_size * micro_batch_size`, a training batch hits
`assert is_val` (modelled as `Except.error`) and a validation batch is
padded.  `micro_batch_size` here is the doubled value computed at the top
of the loop body. -/
def checkAndPadBatch (is_val : Bool) (dp_size micro_batch_size : Nat)
    (batch : List ℚ) : Except String (List ℚ) :=
  if batch.length % (dp_size * micro_batch_size) ≠ 0 then
    if is_val then
      Except.ok (maybe_pad_last_batch batch dp_size micro_batch_size)
    else
      Except.error "Partial batches should only happen during validation"
  else
    Except.ok batch

/-! ## Reference-logprob rotation (`torch.roll(logprobs, -1, dims=-1)`) -/

/-- One row of `torch.roll(x, -1)` along the sequence axis: element `i` of the
result is element `(i + 1) % L` of the input. -/
def rollLeft (l : List α) : List α := l.drop 1 ++ l.take 1

/-- One row of `torch.roll(x, 1)`: the inverse rotation. -/
def rollRight (l : List α) : List α :=
  l.drop (l.length - 1) ++ l.take (l.length - 1)

/-- The `reference_policy_logprobs` attachment of `add_ref_logprobs_to_data`:
the logprob tensor returned by the reference-scoring service (one row per
sequence, last axis the sequence axis) rolled left by one along the
sequence axis. -/
def attachRefLogprobs (logprobs : List (List ℚ)) : List (List ℚ) :=
  logprobs.map rollLeft

/-! ## Stale validation-key pruning at checkpoint time -/

/-- Python `str.startswith`, on the character lists underlying the keys. -/
def strStartsWith : List Char → List Char → Bool
  | _, [] => true
  | [], _ :: _ => false
  | c :: cs, d :: ds => c == d && strStartsWith cs ds

/-- Python `str.endswith`. -/
def strEndsWith (s tail : List Char) : Bool :=
  strStartsWith s.reverse tail.reverse

/-- The stale-key test of the checkpoint block of `dpo_train` (the
`for key in list(dpo_save_state)` loop): a key is deleted when it starts
with `"val"`, ends with `"_" + m` for some metric name `m` other than
`"num_valid_samples"`, and is absent from the fresh `val_metrics` (or
`val_metrics is None` because validation did not run this step). -/
def isStaleValKey (freshKeys : Option (List (List Char))) (k : List Char) : Bool :=
  strStartsWith k "val".data &&
    (valMetricNames.filter (fun m => m ≠ "num_valid_samples")).any
      (fun m => strEndsWith k ('_' :: m.data)) &&
    (match freshKeys with
     | none => true
     | some ks => !(ks.contains k))

/-- Python `dict.update` on the association-list model of the dynamic keys
of `dpo_save_state`: entries of `fresh` replace same-keyed entries and are
appended otherwise. -/
def dictUpdate (st fresh : List (List Char × ℚ)) : List (List Char × ℚ) :=
  st.filter (fun kv => !((fresh.map Prod.fst).contains kv.1)) ++ fresh

/-- The validation-metric bookkeeping of one checkpoint write: prune stale
keys, then `dpo_save_state.update(val_metrics)` when validation ran this
step.  (The fixed progress fields of `dpo_save_state` are kept apart in
`LoopState`; none of their names starts with `"val"`, so the pruning loop
never touches them.) -/
def checkpointValMetrics (fresh : Option (List (List Char × ℚ)))
    (st : List (List Char × ℚ)) : List (List Char × ℚ) :=
  let pruned :=
    st.filter (fun kv => !(isStaleValKey (fresh.map (fun f => f.map Prod.fst)) kv.1))
  match fresh with
  | none => pruned
  | some f => dictUpdate pruned f

/-- The key `validate` stores dataset `ds`'s metric `m` under:
`f"validation-{ds}_{m}"`. -/
def valKey (ds m : String) : List Char :=
  "validation-".data ++ ds.data ++ ('_' :: m.data)

/-! ## The missing-dataloader guard of `validate_one_dataset` -/

/-- The guard at the top of `validate_one_dataset`: a missing dataloader
trips `assert val_dataloader is not None or val_period == 0` (modelled as
`Except.error`) unless `val_period == 0`, in which case the function warns
and returns without validating.  On success the flag records whether a
validation pass actually runs (`true` iff a dataloader is present). -/
def validateOneDatasetGuard (hasLoader : Bool) (val_period : Nat) :
    Except String Bool :=
  if hasLoader then Except.ok true
  else if val_period ≠ 0 then
    Except.error "val_dataloader is None, so dpo.val_period must be 0"
  else Except.ok false

/-! ## Per-step training-metric reduction (`dpo_train`) -/

def listMean (vs : List ℚ) : ℚ := vs.sum / vs.length

/-- The keys the per-step reduction treats specially:
`if k in {"lr", "wd", "global_valid_seqs", "global_valid_toks"}`. -/
def meanReducedTrainMetrics : List String :=
  ["lr", "wd", "global_valid_seqs", "global_valid_toks"]

/-- The per-step scalar-metric reduction of `dpo_train`: `np.mean` for the
keys in `meanReducedTrainMetrics`, `np.sum` for every other key, across the
micro-batch values the step produced. -/
def reduceTrainMetric (name : String) (vs : List ℚ) : ℚ :=
  if name ∈ meanReducedTrainMetrics then listMean vs else vs.sum

/-! ## Theorems -/

theorem doStep_total_steps (cfg : LoopCfg) (timeoutAt : Nat → Bool) (st : LoopState) :
    (doStep cfg timeoutAt st).state.total_steps = st.total_steps + 1 := rfl

theorem doStep_consumed_samples (cfg : LoopCfg) (timeoutAt : Nat → Bool) (st : LoopState) :
    (doStep cfg timeoutAt st).state.consumed_samples
      = st.consumed_samples + cfg.train_global_batch_size := rfl

/-- The configuration of the end-to-end scenario: 2 epochs of 3 steps each,
`max_num_steps = 100`, `save_period = 2`, checkpointing enabled, no
validation, timeout never firing. -/
def scenarioCfg : LoopCfg :=
  { max_num_epochs := 2, max_num_steps := 100, num_batches := 3,
    train_global_batch_size := 8, save_period := 2,
    checkpointing_enabled := true, val_period := 0, val_at_start := false,
    num_val_datasets := 0 }

theorem runInner_preserves_ratio (cfg : LoopCfg) (timeoutAt : Nat → Bool) :
    ∀ (n : Nat) (st : LoopState),
      st.consumed_samples = st.total_steps * cfg.train_global_batch_size →
      (runInner cfg timeoutAt st n).1.consumed_samples
        = (runInner cfg timeoutAt st n).1.total_steps
            * cfg.train_global_batch_size := by
  intro n
  induction n with
  | zero => intro st h; exact h
  | succ k ih =>
    intro st h
    have hstep : (doStep cfg timeoutAt st).state.consumed_samples
        = (doStep cfg timeoutAt st).state.total_steps
            * cfg.train_global_batch_size := by
      rw [doStep_consumed_samples, doStep_total_steps, h, Nat.succ_mul]
    by_cases hT : (doStep cfg timeoutAt st).terminated
    · simp [runInner, hT, hstep]
    · simp only [runInner, hT, Bool.false_eq_true, if_false]
      exact ih _ hstep

theorem runOuter_preserves_ratio (cfg : LoopCfg) (timeoutAt : Nat → Bool) :
    ∀ (fuel : Nat) (st : LoopState),
      st.consumed_samples = st.total_steps * cfg.train_global_batch_size →
      (runOuter cfg timeoutAt st fuel).1.consumed_samples
        = (runOuter cfg timeoutAt st fuel).1.total_steps
            * cfg.train_global_batch_size := by
  intro fuel
  induction fuel with
  | zero => intro st h; exact h
  | succ k ih =>
    intro st h
    by_cases hc : st.current_epoch < cfg.max_num_epochs
        ∧ st.total_steps < cfg.max_num_steps
    · simp only [runOuter, if_pos hc]
      have hin := runInner_preserves_ratio cfg timeoutAt cfg.num_batches st h
      by_cases hT : (runInner cfg timeoutAt st cfg.num_batches).2.2
      · simp [hT, hin]
      · simp only [hT, Bool.false_eq_true, if_false]
        exact ih _ hin
    · simp only [runOuter, if_neg hc]
      exact h

/-- C1: after `n` completed optimizer steps from a fresh progress record,
`total_steps = n` and `consumed_samples = n * train_global_batch_size`;
from any loop state a completed step increases `total_steps` by exactly 1
and `consumed_samples` by exactly the global batch size; and every run of
the loop preserves `consumed_samples = total_steps * batch size` from any
starting record that satisfies it. -/
theorem step_counters_track_completed_steps
    (cfg : LoopCfg) (timeoutAt : Nat → Bool) (n : Nat) :
    ((fun s => (doStep cfg timeoutAt s).state)^[n] freshState).total_steps = n ∧
    ((fun s => (doStep cfg timeoutAt s).state)^[n] freshState).consumed_samples
      = n * cfg.train_global_batch_size ∧
    (∀ st : LoopState,
      (doStep cfg timeoutAt st).state.total_steps = st.total_steps + 1 ∧
      (doStep cfg timeoutAt st).state.consumed_samples
        = st.consumed_samples + cfg.train_global_batch_size) ∧
    (∀ st : LoopState,
      st.consumed_samples = st.total_steps * cfg.train_global_batch_size →
      (dpoTrain cfg timeoutAt st).1.consumed_samples
        = (dpoTrain cfg timeoutAt st).1.total_steps
            * cfg.train_global_batch_size) := by
  refine ⟨?_, ?_, fun st => ⟨rfl, rfl⟩, fun st h => ?_⟩
  · induction n with
    | zero => rfl
    | succ k ih =>
      rw [Function.iterate_succ_apply', doStep_total_steps, ih]
  · induction n with
    | zero => simp [freshState]
    | succ k ih =>
      rw [Function.iterate_succ_apply', doStep_consumed_samples, ih,
        Nat.succ_mul]
  · exact runOuter_preserves_ratio cfg timeoutAt _ st h

/-- Witness for `step_counters_track_completed_steps`. -/
theorem step_counters_track_completed_steps_witness :
    ((fun s => (doStep scenarioCfg (fun _ => false) s).state)^[5]
        freshState).total_steps = 5 ∧
    freshState.consumed_samples
      = freshState.total_steps * scenarioCfg.train_global_batch_size ∧
    (dpoTrain scenarioCfg (fun _ => false) freshState).1.consumed_samples
      = (dpoTrain scenarioCfg (fun _ => false) freshState).1.total_steps
          * scenarioCfg.train_global_batch_size := by
  have h := step_counters_track_completed_steps scenarioCfg (fun _ => false) 5
  exact ⟨h.1, rfl, h.2.2.2 freshState rfl⟩

/-- C2: in the 2-epochs-of-3-steps scenario with `max_num_steps = 100` and
`save_period = 2`, checkpoints are written exactly after global steps 2, 4
and 6, and the run terminates with `epoch = 2`, `step = 0`,
`total_steps = 6`. -/
theorem two_epoch_scenario_checkpoints_and_final_state :
    (dpoTrain scenarioCfg (fun _ => false) freshState).2.checkpoints = [2, 4, 6] ∧
    (dpoTrain scenarioCfg (fun _ => false) freshState).1.current_epoch = 2 ∧
    (dpoTrain scenarioCfg (fun _ => false) freshState).1.current_step = 0 ∧
    (dpoTrain scenarioCfg (fun _ => false) freshState).1.total_steps = 6 :=
  ⟨rfl, rfl, rfl, rfl⟩

/-- A run with checkpointing disabled, used to exercise the
timeout-triggered return: 5 allowed epochs of 3 batches, a step ceiling of
10, and a timeout signal at the very first step boundary. -/
def scenarioCfgDisabled : LoopCfg :=
  { max_num_epochs := 5, max_num_steps := 10, num_batches := 3,
    train_global_batch_size := 4, save_period := 2,
    checkpointing_enabled := false, val_period := 0, val_at_start := false,
    num_val_datasets := 0 }

/-- C10: when checkpointing is disabled and the timeout fires at a step
boundary, the step body still takes the timeout-triggered `return` — the
inner loop stops right after that one step — but no checkpoint is written. -/
theorem timeout_return_regardless_of_checkpointing
    (cfg : LoopCfg) (timeoutAt : Nat → Bool) (st : LoopState) (b : Nat)
    (hdis : cfg.checkpointing_enabled = false)
    (hto : timeoutAt st.total_steps = true) :
    (runInner cfg timeoutAt st (b + 1)).2.1.checkpoints = [] ∧
    (runInner cfg timeoutAt st (b + 1)).2.2 = true ∧
    (runInner cfg timeoutAt st (b + 1)).1 = (doStep cfg timeoutAt st).state := by
  have hterm : (doStep cfg timeoutAt st).terminated = true := by
    simp [doStep, hto]
  have hcp : (doStep cfg timeoutAt st).checkpoint = none := by
    simp [doStep, hdis]
  simp [runInner, hterm, StepOut.effects, hcp]

/-- Witness for `timeout_return_regardless_of_checkpointing`. -/
theorem timeout_return_regardless_of_checkpointing_witness :
    (runInner scenarioCfgDisabled (fun n => n == 0) freshState 3).2.1.checkpoints = [] ∧
    (runInner scenarioCfgDisabled (fun n => n == 0) freshState 3).2.2 = true ∧
    (runInner scenarioCfgDisabled (fun n => n == 0) freshState 3).1
      = (doStep scenarioCfgDisabled (fun n => n == 0) freshState).state :=
  timeout_return_regardless_of_checkpointing scenarioCfgDisabled (fun n => n == 0)
    freshState 2 rfl rfl

/-- C7 counterexample: with checkpointing disabled, the timeout signal at
the first step boundary terminates the run after that step — final
`total_steps = 1`, strictly below both ceilings — yet no checkpoint is
written, so a timeout signal does not imply that a checkpoint is saved. -/
theorem timeout_termination_without_checkpoint_cex :
    ((fun n => n == 0) : Nat → Bool) 0 = true ∧
    (dpoTrain scenarioCfgDisabled (fun n => n == 0) freshState).2.checkpoints = [] ∧
    (dpoTrain scenarioCfgDisabled (fun n => n == 0) freshState).1.total_steps = 1 ∧
    (dpoTrain scenarioCfgDisabled (fun n => n == 0) freshState).1.current_epoch
      < scenarioCfgDisabled.max_num_epochs ∧
    (dpoTrain scenarioCfgDisabled (fun n => n == 0) freshState).1.total_steps
      < scenarioCfgDisabled.max_num_steps :=
  ⟨rfl, rfl, rfl, by decide, by decide⟩

/-- C7 amended: when the timeout fires at a step boundary *and checkpointing
is enabled*, a checkpoint keyed by `total_steps + 1` is written and the loop
returns right after that step, with no assumption that `total_steps` reached
`max_num_steps` or that the epoch ceiling was reached; with checkpointing
disabled the run still terminates but writes nothing. -/
theorem timeout_forces_checkpoint_and_return
    (cfg : LoopCfg) (timeoutAt : Nat → Bool) (st : LoopState) (b : Nat)
    (hen : cfg.checkpointing_enabled = true)
    (hto : timeoutAt st.total_steps = true) :
    (runInner cfg timeoutAt st (b + 1)).2.1.checkpoints = [st.total_steps + 1] ∧
    (runInner cfg timeoutAt st (b + 1)).2.2 = true ∧
    (runInner cfg timeoutAt st (b + 1)).1 = (doStep cfg timeoutAt st).state ∧
    (cfg.num_batches = b + 1 → st.current_epoch < cfg.max_num_epochs →
      st.total_steps < cfg.max_num_steps →
      (dpoTrain cfg timeoutAt st).1 = (doStep cfg timeoutAt st).state) := by
  have hterm : (doStep cfg timeoutAt st).terminated = true := by
    simp [doStep, hto]
  have hcp : (doStep cfg timeoutAt st).checkpoint = some (st.total_steps + 1) := by
    simp [doStep, hen, hto]
  have hinner : ∀ n, runInner cfg timeoutAt st (n + 1)
      = ((doStep cfg timeoutAt st).state,
         (doStep cfg timeoutAt st).effects, true) := by
    intro n
    simp [runInner, hterm]
  refine ⟨?_, ?_, ?_, ?_⟩
  · rw [hinner b]; simp [StepOut.effects, hcp]
  · rw [hinner b]
  · rw [hinner b]
  · intro hb hep hms
    obtain ⟨k, hk⟩ : ∃ k, cfg.max_num_epochs - st.current_epoch = k + 1 :=
      ⟨cfg.max_num_epochs - st.current_epoch - 1, by omega⟩
    unfold dpoTrain
    rw [hk]
    simp only [runOuter, hb]
    rw [if_pos ⟨hep, hms⟩, hinner b]
    simp

/-- Witness for `timeout_forces_checkpoint_and_return`. -/
theorem timeout_forces_checkpoint_and_return_witness :
    (runInner scenarioCfg (fun n => n == 0) freshState 3).2.1.checkpoints = [1] ∧
    (runInner scenarioCfg (fun n => n == 0) freshState 3).2.2 = true ∧
    (runInner scenarioCfg (fun n => n == 0) freshState 3).1
      = (doStep scenarioCfg (fun n => n == 0) freshState).state ∧
    (scenarioCfg.num_batches = 3 → freshState.current_epoch < scenarioCfg.max_num_epochs →
      freshState.total_steps < scenarioCfg.max_num_steps →
      (dpoTrain scenarioCfg (fun n => n == 0) freshState).1
        = (doStep scenarioCfg (fun n => n == 0) freshState).state) :=
  timeout_forces_checkpoint_and_return scenarioCfg (fun n => n == 0) freshState 2 rfl rfl

theorem runInner_no_val_steps (cfg : LoopCfg) (timeoutAt : Nat → Bool)
    (h : cfg.val_period = 0) :
    ∀ (n : Nat) (st : LoopState), (runInner cfg timeoutAt st n).2.1.val_steps = [] := by
  intro n
  induction n with
  | zero => intro st; rfl
  | succ k ih =>
    intro st
    have hrv : (doStep cfg timeoutAt st).ran_validation = false := by
      simp [doStep, h]
    by_cases hT : (doStep cfg timeoutAt st).terminated
    · simp [runInner, hT, StepOut.effects, hrv]
    · simp [runInner, hT, StepOut.effects, hrv, RunEffects.append, ih]

theorem runOuter_no_val_steps (cfg : LoopCfg) (timeoutAt : Nat → Bool)
    (h : cfg.val_period = 0) :
    ∀ (fuel : Nat) (st : LoopState), (runOuter cfg timeoutAt st fuel).2.val_steps = [] := by
  intro fuel
  induction fuel with
  | zero => intro st; rfl
  | succ k ih =>
    intro st
    by_cases hc : st.current_epoch < cfg.max_num_epochs ∧ st.total_steps < cfg.max_num_steps
    · simp only [runOuter, if_pos hc]
      by_cases hT : (runInner cfg timeoutAt st cfg.num_batches).2.2
      · simp [hT, runInner_no_val_steps cfg timeoutAt h]
      · simp [hT, RunEffects.append, runInner_no_val_steps cfg timeoutAt h, ih]
    · simp [runOuter, if_neg hc]

/-- C8: a missing validation dataloader with non-zero `val_period` trips the
fatal assertion of `validate_one_dataset`; with `val_period = 0` the guard
passes without running a validation pass, and a run with no validation
datasets and zero period performs zero single-dataset validation passes —
with `val_at_start` unset the loop issues no `validate` call at all. -/
theorem val_period_guard_and_disabled_state
    (p : Nat) (hp : p ≠ 0)
    (cfg : LoopCfg) (timeoutAt : Nat → Bool) (st : LoopState)
    (hvp : cfg.val_period = 0) (hnod : cfg.num_val_datasets = 0) :
    (validateOneDatasetGuard false p).isOk = false ∧
    validateOneDatasetGuard false 0 = Except.ok false ∧
    valPassCount cfg timeoutAt st = 0 ∧
    (cfg.val_at_start = false → (dpoTrain cfg timeoutAt st).2.val_steps = []) := by
  refine ⟨?_, rfl, ?_, ?_⟩
  · simp [validateOneDatasetGuard, hp, Except.isOk, Except.toBool]
  · simp [valPassCount, hnod]
  · intro hvas
    simp [dpoTrain, hvas, RunEffects.append,
      runOuter_no_val_steps cfg timeoutAt hvp]

/-- Witness for `val_period_guard_and_disabled_state`. -/
theorem val_period_guard_and_disabled_state_witness :
    (validateOneDatasetGuard false 3).isOk = false ∧
    validateOneDatasetGuard false 0 = Except.ok false ∧
    valPassCount scenarioCfg (fun _ => false) freshState = 0 ∧
    (scenarioCfg.val_at_start = false →
      (dpoTrain scenarioCfg (fun _ => false) freshState).2.val_steps = []) :=
  val_period_guard_and_disabled_state 3 (by decide) scenarioCfg (fun _ => false)
    freshState rfl rfl

/-- C9 counterexample: `lr` is not a global-valid field, yet the per-step
reduction takes its mean rather than its sum: over the micro-batch values
`[1, 3]` the code produces `2` while the sum is `4`. -/
theorem lr_reduced_by_mean_not_sum_cex :
    ¬ ("lr" ∈ ["global_valid_seqs", "global_valid_toks"]) ∧
    reduceTrainMetric "lr" [1, 3] = 2 ∧
    ([1, 3] : List ℚ).sum = 4 ∧
    reduceTrainMetric "lr" [1, 3] ≠ ([1, 3] : List ℚ).sum := by
  refine ⟨by decide, ?_, by norm_num, ?_⟩
  · norm_num [reduceTrainMetric, listMean, meanReducedTrainMetrics]
  · norm_num [reduceTrainMetric, listMean, meanReducedTrainMetrics]

/-- C9 amended: the per-step scalar metrics are reduced by mean for the four
keys `lr`, `wd`, `global_valid_seqs`, `global_valid_toks`, and by sum for
every other metric key. -/
theorem train_metric_reduction_table (name : String) (vs : List ℚ) :
    (name ∈ meanReducedTrainMetrics → reduceTrainMetric name vs = listMean vs) ∧
    (name ∉ meanReducedTrainMetrics → reduceTrainMetric name vs = vs.sum) := by
  constructor <;> intro h <;> simp [reduceTrainMetric, h]

/-- Witness for `train_metric_reduction_table`. -/
theorem train_metric_reduction_table_witness :
    reduceTrainMetric "wd" [1, 3] = listMean [1, 3] ∧
    reduceTrainMetric "loss" [1, 3] = ([1, 3] : List ℚ).sum :=
  ⟨(train_metric_reduction_table "wd" [1, 3]).1 (by decide),
   (train_metric_reduction_table "loss" [1, 3]).2 (by decide)⟩

/-- A contributing validation batch whose sample count is zero. -/
def zeroSampleBatch : ValBatch :=
  { loss := 5, sft_loss := 1, preference_loss := 4, accuracy := 1,
    rewards_chosen_mean := 2, rewards_rejected_mean := 3,
    num_valid_samples := 0, global_valid_seqs := 1, global_valid_toks := 7 }

/-- C3 counterexample: one contributing batch with `num_valid_samples = 0`,
so `Σ(n_i) = 0`, yet the aggregation hits Python's `ZeroDivisionError`
(modelled `none`) instead of reporting all-zero metrics with a warning:
the code's zero guard tests `num_valid_batches`, not `Σ(n_i)`. -/
theorem aggregate_divzero_on_zero_sample_batches_cex :
    ([zeroSampleBatch].map ValBatch.num_valid_samples).sum = 0 ∧
    aggregateValMetrics [zeroSampleBatch] = none := by
  constructor
  · simp [zeroSampleBatch]
  · simp [aggregateValMetrics, zeroSampleBatch]

/-- C3 amended: over the contributing batches, whenever `Σ(n_i) ≠ 0` every
sample-weighted metric equals `Σ(v_i·n_i) / Σ(n_i)`, the two global-valid
quantities and the sample count are plain sums and no warning fires; when
*no batch contributes* (`num_valid_batches = 0`) every metric is reported
as `0.0` with a warning and no exception; but `Σ(n_i) = 0` with at least
one contributing batch raises `ZeroDivisionError`. -/
theorem aggregate_weighted_mean_and_zero_cases (batches : List ValBatch)
    (hne : batches ≠ [])
    (hs : (batches.map ValBatch.num_valid_samples).sum ≠ 0) :
    aggregateValMetrics batches =
      some
        ({ loss := specWeightedMean (batches.map ValBatch.loss)
             (batches.map ValBatch.num_valid_samples),
           sft_loss := specWeightedMean (batches.map ValBatch.sft_loss)
             (batches.map ValBatch.num_valid_samples),
           preference_loss := specWeightedMean (batches.map ValBatch.preference_loss)
             (batches.map ValBatch.num_valid_samples),
           accuracy := specWeightedMean (batches.map ValBatch.accuracy)
             (batches.map ValBatch.num_valid_samples),
           rewards_chosen_mean :=
             specWeightedMean (batches.map ValBatch.rewards_chosen_mean)
               (batches.map ValBatch.num_valid_samples),
           rewards_rejected_mean :=
             specWeightedMean (batches.map ValBatch.rewards_rejected_mean)
               (batches.map ValBatch.num_valid_samples),
           num_valid_samples := (batches.map ValBatch.num_valid_samples).sum,
           global_valid_seqs := (batches.map ValBatch.global_valid_seqs).sum,
           global_valid_toks := (batches.map ValBatch.global_valid_toks).sum },
         false) ∧
    aggregateValMetrics [] = some (DPOValMetrics.zero, true) := by
  refine ⟨?_, rfl⟩
  rw [aggregateValMetrics]
  rw [if_pos (List.length_pos.mpr hne), if_neg hs]
  rfl

theorem strStartsWith_append (p r : List Char) : strStartsWith (p ++ r) p = true := by
  induction p with
  | nil => simp [strStartsWith]
  | cons c cs ih => simp [strStartsWith, ih]

theorem strEndsWith_append (r s : List Char) : strEndsWith (r ++ s) s = true := by
  rw [strEndsWith, List.reverse_append]
  exact strStartsWith_append s.reverse r.reverse

theorem strStartsWith_valKey (ds m : String) :
    strStartsWith (valKey ds m) "val".data = true := by
  have h : valKey ds m
      = "val".data ++ ("idation-".data ++ ds.data ++ ('_' :: m.data)) := by
    rw [valKey]
    have hv : "validation-".data = "val".data ++ "idation-".data := by decide
    rw [hv]
    simp [List.append_assoc]
  rw [h]
  exact strStartsWith_append _ _

theorem strEndsWith_valKey (ds m : String) :
    strEndsWith (valKey ds m) ('_' :: m.data) = true := by
  have h : valKey ds m = ("validation-".data ++ ds.data) ++ ('_' :: m.data) := by
    rw [valKey, List.append_assoc]
  rw [h]
  exact strEndsWith_append _ _

theorem isStaleValKey_valKey (ds m : String) (hm : m ∈ valMetricNames)
    (hne : m ≠ "num_valid_samples") (freshKeys : Option (List (List Char)))
    (habs : ∀ ks, freshKeys = some ks → ks.contains (valKey ds m) = false) :
    isStaleValKey freshKeys (valKey ds m) = true := by
  have hany : (valMetricNames.filter (fun x => x ≠ "num_valid_samples")).any
      (fun x => strEndsWith (valKey ds m) ('_' :: x.data)) = true := by
    rw [List.any_eq_true]
    exact ⟨m, List.mem_filter.mpr ⟨hm, by simp [hne]⟩, strEndsWith_valKey ds m⟩
  unfold isStaleValKey
  rw [strStartsWith_valKey, hany]
  cases freshKeys with
  | none => rfl
  | some ks =>
    have h : valKey ds m ∉ ks := by simpa using habs ks rfl
    simp [h]

/-- C6: if dataset `A`'s metrics are not refreshed in the current checkpoint
cycle (validation did not run, or ran without producing any key for `A`),
then every one of `A`'s validation metric keys other than the
`num_valid_samples` denominator is absent from the metric mapping written at
this cycle, whatever the previous cycle had stored. -/
theorem stale_val_metric_keys_pruned (A m : String)
    (hm : m ∈ valMetricNames) (hne : m ≠ "num_valid_samples")
    (st : List (List Char × ℚ)) (fresh : Option (List (List Char × ℚ)))
    (habs : ∀ f, fresh = some f → (f.map Prod.fst).contains (valKey A m) = false) :
    valKey A m ∉ (checkpointValMetrics fresh st).map Prod.fst := by
  have hstale : isStaleValKey (fresh.map (fun f => f.map Prod.fst))
      (valKey A m) = true := by
    apply isStaleValKey_valKey A m hm hne
    intro ks hks
    cases fresh with
    | none => exact absurd hks (by simp)
    | some f =>
      have hf : f.map Prod.fst = ks := by simpa using hks
      rw [← hf]
      exact habs f rfl
  intro hmem
  cases fresh with
  | none =>
    simp only [checkpointValMetrics, List.mem_map, List.mem_filter] at hmem
    obtain ⟨kv, ⟨hst, hp⟩, hfst⟩ := hmem
    rw [hfst, hstale] at hp
    exact absurd hp (by simp)
  | some f =>
    simp only [checkpointValMetrics, dictUpdate, List.map_append, List.mem_append,
      List.mem_map, List.mem_filter] at hmem
    cases hmem with
    | inl h =>
      obtain ⟨kv, ⟨⟨hst, hp⟩, hc⟩, hfst⟩ := h
      rw [hfst, hstale] at hp
      exact absurd hp (by simp)
    | inr h =>
      have hc : valKey A m ∉ f.map Prod.fst := by simpa using habs f rfl
      exact hc (List.mem_map.mpr h)

/-- Witness for `stale_val_metric_keys_pruned`: the previous cycle stored
`loss` and `num_valid_samples` for dataset `A`; the current cycle refreshed
only dataset `B`, so `A`'s `loss` key is gone from the written mapping. -/
theorem stale_val_metric_keys_pruned_witness :
    valKey "A" "loss" ∉
      (checkpointValMetrics (some [(valKey "B" "loss", 7)])
        [(valKey "A" "loss", 1), (valKey "A" "num_valid_samples", 2)]).map
        Prod.fst :=
  stale_val_metric_keys_pruned "A" "loss" (by decide) (by decide)
    [(valKey "A" "loss", 1), (valKey "A" "num_valid_samples", 2)]
    (some [(valKey "B" "loss", 7)])
    (by intro f hf; injection hf with h; rw [← h]; decide)

theorem rollRight_rollLeft (l : List α) : rollRight (rollLeft l) = l := by
  cases l with
  | nil => rfl
  | cons x xs =>
    show rollRight (xs ++ [x]) = x :: xs
    rw [rollRight]
    have hlen : (xs ++ [x]).length = xs.length + 1 := by simp
    rw [hlen, Nat.add_sub_cancel, List.drop_left, List.take_left]
    rfl

/-- C5: the attached `reference_policy_logprobs` tensor holds, at sequence
position `i < L - 1`, the value the reference-scoring service computed at
position `i + 1`, and rotating each attached row right by one restores the
pre-augmentation tensor. -/
theorem ref_logprobs_left_shift_roundtrip
    (logprobs : List (List ℚ)) (r i : Nat)
    (hr : r < logprobs.length)
    (hi : i + 1 < (logprobs.getD r []).length) :
    ((attachRefLogprobs logprobs).getD r []).getD i 0
      = (logprobs.getD r []).getD (i + 1) 0 ∧
    (attachRefLogprobs logprobs).map rollRight = logprobs := by
  constructor
  · have hmap : (attachRefLogprobs logprobs).getD r []
        = rollLeft (logprobs.getD r []) := by
      rw [attachRefLogprobs, List.getD_eq_getElem?_getD, List.getElem?_map,
        List.getElem?_eq_getElem hr, List.getD_eq_getElem?_getD,
        List.getElem?_eq_getElem hr]
      rfl
    rw [hmap]
    rw [rollLeft]
    have hdl : i < ((logprobs.getD r []).drop 1).length := by
      rw [List.length_drop]; omega
    rw [List.getD_eq_getElem?_getD, List.getElem?_append_left hdl,
      List.getElem?_eq_getElem hdl, List.getElem_drop,
      List.getD_eq_getElem _ _ hi, Option.getD_some]
    congr 1
    omega
  · rw [attachRefLogprobs, List.map_map]
    have : (rollRight ∘ rollLeft : List ℚ → List ℚ) = id := by
      funext l
      exact rollRight_rollLeft l
    rw [this, List.map_id]

/-- Witness for `ref_logprobs_left_shift_roundtrip`: a 2 × 3 tensor. -/
theorem ref_logprobs_left_shift_roundtrip_witness :
    ((attachRefLogprobs [[1, 2, 3], [4, 5, 6]]).getD 0 []).getD 1 0
      = (([[1, 2, 3], [4, 5, 6]] : List (List ℚ)).getD 0 []).getD 2 0 ∧
    (attachRefLogprobs [[1, 2, 3], [4, 5, 6]]).map rollRight
      = [[1, 2, 3], [4, 5, 6]] :=
  ref_logprobs_left_shift_roundtrip [[1, 2, 3], [4, 5, 6]] 0 1
    (by decide) (by decide)

/-- C4: a batch whose logical size is not divisible by
`dp_size * micro_batch_size` is, in validation mode, zero-padded up to the
next multiple (the padding is less than one full multiple and the padded
size is divisible), while in training mode the same defect trips the fatal
assertion instead of padding. -/
theorem uneven_batch_val_padded_train_fatal
    (dp_size micro_batch_size : Nat) (batch : List ℚ)
    (hm : 0 < dp_size * micro_batch_size)
    (hnd : batch.length % (dp_size * micro_batch_size) ≠ 0) :
    checkAndPadBatch true dp_size micro_batch_size batch
      = Except.ok (batch ++ List.replicate
          (dp_size * micro_batch_size
            - batch.length % (dp_size * micro_batch_size)) (0 : ℚ)) ∧
    (batch.length +
        (dp_size * micro_batch_size
          - batch.length % (dp_size * micro_batch_size)))
      % (dp_size * micro_batch_size) = 0 ∧
    0 < dp_size * micro_batch_size
        - batch.length % (dp_size * micro_batch_size) ∧
    dp_size * micro_batch_size - batch.length % (dp_size * micro_batch_size)
      < dp_size * micro_batch_size ∧
    (checkAndPadBatch false dp_size micro_batch_size batch).isOk = false := by
  set m := dp_size * micro_batch_size with hmdef
  set L := batch.length with hLdef
  have hdm : m * (L / m) + L % m = L := Nat.div_add_mod L m
  have hr : 0 < L % m := Nat.pos_of_ne_zero hnd
  have hrm : L % m < m := Nat.mod_lt _ hm
  have h1 : (L / m + 1) * m = m * (L / m) + m := by ring
  have e0 : L + m - 1 = (L % m - 1) + (L / m + 1) * m := by omega
  have h2 : m * (L / m + 1) = m * (L / m) + m := by ring
  have hdiv : (L + m - 1) / m = L / m + 1 := by
    rw [e0, Nat.add_mul_div_right _ _ hm, Nat.div_eq_of_lt (by omega)]
    omega
  have htar : ((L + m - 1) / m) * m - L = m - L % m := by
    rw [hdiv]; omega
  have hmul : L + (m - L % m) = m * (L / m + 1) := by omega
  refine ⟨?_, ?_, by omega, by omega, ?_⟩
  · rw [checkAndPadBatch, if_pos hnd]
    show Except.ok (maybe_pad_last_batch batch dp_size micro_batch_size) = _
    rw [maybe_pad_last_batch]
    rw [← hmdef, ← hLdef, htar]
  · rw [hmul, Nat.mul_mod_right]
  · simp [checkAndPadBatch, hnd, Except.isOk, Except.toBool]

/-- Witness for `uneven_batch_val_padded_train_fatal`: `dp_size = 2`,
doubled micro-batch size 3, a validation batch of 4 rows is padded with two
zero rows to size 6; the same batch in training mode is fatal. -/
theorem uneven_batch_val_padded_train_fatal_witness :
    checkAndPadBatch true 2 3 [1, 2, 3, 4]
      = Except.ok ([1, 2, 3, 4] ++ List.replicate
          (2 * 3 - ([1, 2, 3, 4] : List ℚ).length % (2 * 3)) (0 : ℚ)) ∧
    (([1, 2, 3, 4] : List ℚ).length +
        (2 * 3 - ([1, 2, 3, 4] : List ℚ).length % (2 * 3))) % (2 * 3) = 0 ∧
    0 < 2 * 3 - ([1, 2, 3, 4] : List ℚ).length % (2 * 3) ∧
    2 * 3 - ([1, 2, 3, 4] : List ℚ).length % (2 * 3) < 2 * 3 ∧
    (checkAndPadBatch false 2 3 [1, 2, 3, 4]).isOk = false :=
  uneven_batch_val_padded_train_fatal 2 3 [1, 2, 3, 4] (by decide) (by decide)

/-- A contributing validation batch with two valid samples. -/
def oneValBatch : ValBatch :=
  { loss := 3, sft_loss := 1, preference_loss := 2, accuracy := 1,
    rewards_chosen_mean := 5, rewards_rejected_mean := 4,
    num_valid_samples := 2, global_valid_seqs := 1, global_valid_toks := 9 }

/-- Witness for `aggregate_weighted_mean_and_zero_cases`. -/
theorem aggregate_weighted_mean_and_zero_cases_witness :
    aggregateValMetrics [oneValBatch] =
      some
        ({ loss := specWeightedMean ([oneValBatch].map ValBatch.loss)
             ([oneValBatch].map ValBatch.num_valid_samples),
           sft_loss := specWeightedMean ([oneValBatch].map ValBatch.sft_loss)
             ([oneValBatch].map ValBatch.num_valid_samples),
           preference_loss := specWeightedMean ([oneValBatch].map ValBatch.preference_loss)
             ([oneValBatch].map ValBatch.num_valid_samples),
           accuracy := specWeightedMean ([oneValBatch].map ValBatch.accuracy)
             ([oneValBatch].map ValBatch.num_valid_samples),
           rewards_chosen_mean :=
             specWeightedMean ([oneValBatch].map ValBatch.rewards_chosen_mean)
               ([oneValBatch].map ValBatch.num_valid_samples),
           rewards_rejected_mean :=
             specWeightedMean ([oneValBatch].map ValBatch.rewards_rejected_mean)
               ([oneValBatch].map ValBatch.num_valid_samples),
           num_valid_samples := ([oneValBatch].map ValBatch.num_valid_samples).sum,
           global_valid_seqs := ([oneValBatch].map ValBatch.global_valid_seqs).sum,
           global_valid_toks := ([oneValBatch].map ValBatch.global_valid_toks).sum },
         false) ∧
    aggregateValMetrics [] = some (DPOValMetrics.zero, true) :=
  aggregate_weighted_mean_and_zero_cases [oneValBatch] (by simp)
    (by norm_num [oneValBatch])

end DPO
